import Mathlib

/-!
Verification of the sandboxed filesystem toolbox of the `ox` repository
(`tools.py`): the path resolver `_resolve_path`, the glob expander
`_expand_glob_path`, and the tool entry points `list_dir`, `read_files`
(with `_read_file`), `grep` and `tree`, shallowly embedded over an
abstract filesystem environment.

Conventions of the embedding:
* An absolute filesystem path is the list of its name components below
  the anchor `/`; this models the `pathlib.Path` values the Python code
  manipulates.
* Every call into the operating system (`Path.resolve`, `Path.is_file`,
  `Path.is_dir`, `Path.iterdir`, `Path.glob`, `Path.read_text`, and the
  `grep`/`tree` subprocesses behind `_run_cmd` and `subprocess.run`) is a
  field of an `Env` record of oracles; a Python `try`/`except` around
  such a call is mirrored by an `Option`- or `Except`-valued oracle.
* Python strings are Lean `String`s.  The slicing, `splitlines`,
  `lstrip`/`strip` and `"\n".join` operations used by `tools.py` are
  re-implemented below directly on the character list so that every
  definition evaluates inside the kernel.
* A Python function that can raise an exception to its caller is
  embedded with result type `Except String _`; one that only ever
  returns a string is embedded with result type `String`.
-/

/-- Python `"sep".join(pieces)`. -/
def joinSep (sep : String) : List String → String
  | [] => ""
  | [x] => x
  | x :: y :: ys => x ++ sep ++ joinSep sep (y :: ys)

/-- A single-quote character, used inside several message strings of
`tools.py`. -/
def squote : String := String.singleton (Char.ofNat 39)

/-- An absolute path: the name components below the filesystem anchor. -/
abbrev AbsPath := List String

/-- Rendering of an absolute `pathlib.Path` by `str(...)`. -/
def pathToString (p : AbsPath) : String := "/" ++ joinSep "/" p

/-- `target.relative_to(root)` succeeds exactly when the components of
`root` are a leading segment of the components of `target`; this is the
containment test `tools.py` uses for the sandbox. -/
def isWithin (root p : AbsPath) : Bool := List.isPrefixOf root p

/-- The result of constructing `pathlib.Path(path_str)`: whether the
parsed path is absolute, and its components (for a relative path these
are the components to append to the root; `..` segments remain ordinary
components until normalization). -/
structure PyPath where
  isAbsolute : Bool
  parts : List String
deriving DecidableEq

/-- A directory entry as observed through `Path.iterdir`: its final name
and whether `is_dir()` holds for it. -/
structure Entry where
  name : String
  isDir : Bool
deriving DecidableEq

/-- Outcome of the `subprocess.run(["tree", ...])` call in `tree`:
a completed process with captured stdout and stderr, a
`FileNotFoundError` (the `tree` binary is missing), or another
exception rendered as a message. -/
inductive TreeRes where
  | ok (stdout stderr : String)
  | notFound
  | err (msg : String)
deriving DecidableEq

/-- The oracle record standing for the operating system and the external
utilities.  Each field models one primitive that `tools.py` calls:

* `parse` models the `try` block of `_resolve_path` up to and including
  normalization input construction: `none` means some step of
  `Path(path_str)` / joining raised, which the code reports as
  `Invalid path`.
* `resolveAbs` models `Path.resolve()` on an absolute path:
  normalization of `.`/`..` segments and symlink resolution, performed
  by the operating system.
* `rawGlob` models `p.parent.glob(p.name)` in `_expand_glob_path`; an
  `error` is an exception raised by the glob machinery, with its
  message.  The returned candidate paths are the raw (pre-`resolve`)
  matches.
* `grepOut` models `_run_cmd` on the `grep -H -n -B2 -A2` command line
  for one pattern and one file: the stripped stdout (or stderr) of the
  subprocess, `""` when the subprocess printed nothing.
* `readUtf8` models `p.read_text(encoding="utf-8")`; an `error` is an
  exception (for example a `UnicodeDecodeError`) with its message.
* `readLatin1` models a permissive single-byte decoding of the same
  file; it always succeeds.  `tools.py` never calls it: the field
  exists only to state the spec's claimed fallback (`read_file_specFallback`).
* `children` models `p.iterdir()`; an `error` is an exception message.
* `treeCmd` models the `tree` subprocess invoked with `-L max_depth`
  and optionally `-d`. -/
structure Env where
  parse : String → Option PyPath
  resolveAbs : AbsPath → AbsPath
  isFile : AbsPath → Bool
  isDir : AbsPath → Bool
  rawGlob : String → Except String (List AbsPath)
  grepOut : String → AbsPath → String
  readUtf8 : AbsPath → Except String String
  readLatin1 : AbsPath → String
  children : AbsPath → Except String (List Entry)
  treeCmd : AbsPath → Int → Bool → TreeRes

/-- `_resolve_path` from `tools.py` (lines 247-264): parse the input,
normalize it (joined to the root first when relative), and only then
check containment of the normalized result in the root; on a parse
failure report `Invalid path`, on a failed containment check report
that the path is not relative to the root. -/
def _resolve_path (root : AbsPath) (path_str : String) (env : Env) : Except String AbsPath :=
  match env.parse path_str with
  | none => .error ("Invalid path: " ++ path_str)
  | some target =>
    let resolved :=
      if target.isAbsolute then env.resolveAbs target.parts
      else env.resolveAbs (root ++ target.parts)
    if isWithin root resolved then .ok resolved
    else .error ("Path " ++ path_str ++ " is not relative to the root: " ++ pathToString root)

/-- `_read_file` from `tools.py` (lines 232-244): resolve, require a
file, read as UTF-8; any resolver error or read exception becomes the
returned message for this entry.  There is no second attempt with
another encoding. -/
def _read_file (root : AbsPath) (path : String) (env : Env) : String :=
  match _resolve_path root path env with
  | .error e => e
  | .ok p =>
    if env.isFile p = false then path ++ " is not a file"
    else
      match env.readUtf8 p with
      | .ok text => text
      | .error e => "Failed to read file: " ++ e

/-- `read_files` from `tools.py` (lines 28-33): one block
`<path>\n\n<content-or-message>` per input path, joined by single
newlines, in input order. -/
def read_files (root : AbsPath) (paths : List String) (env : Env) : String :=
  joinSep "\n" (paths.map (fun p => p ++ "\n\n" ++ _read_file root p env))

/-- Modelled from the spec: the multi-file reader as §4.3 words it,
which on a UTF-8 decoding failure "falls back to a permissive
single-byte encoding before giving up".  The single-byte decoding
always succeeds, so the fallback returns its text.  This definition
does not come from `tools.py` (the source has no fallback); it exists
only to be compared with `_read_file`. -/
def read_file_specFallback (root : AbsPath) (path : String) (env : Env) : String :=
  match _resolve_path root path env with
  | .error e => e
  | .ok p =>
    if env.isFile p = false then path ++ " is not a file"
    else
      match env.readUtf8 p with
      | .ok text => text
      | .error _ => env.readLatin1 p

/-- Comparison of two character lists by code point, lexicographically;
this is how Python compares the lowercased names in the sort key of
`list_dir`. -/
def lexLe : List Char → List Char → Bool
  | [], _ => true
  | _ :: _, [] => false
  | a :: as, b :: bs =>
    if a.toNat < b.toNat then true
    else if b.toNat < a.toNat then false
    else lexLe as bs

/-- First component of the `list_dir` sort key: Python
`not x.is_dir()`, with `False` ordered before `True`. -/
def dirRank (e : Entry) : Nat := if e.isDir then 0 else 1

/-- Second component of the `list_dir` sort key: `x.name.lower()` as a
character list (`Char.toLower` models `str.lower` on the ASCII names
handled here). -/
def lowerKey (e : Entry) : List Char := e.name.data.map Char.toLower

/-- The sort key `(not x.is_dir(), x.name.lower())` of `list_dir`,
compared as Python compares tuples. -/
def entryLe (a b : Entry) : Bool :=
  if dirRank a < dirRank b then true
  else if dirRank b < dirRank a then false
  else lexLe (lowerKey a) (lowerKey b)

/-- `entryLe` as a decidable relation, for the stable sort standing in
for Python `sorted`. -/
def entryRel (a b : Entry) : Prop := entryLe a b = true

instance : DecidableRel entryRel := fun a b => instDecidableEqBool (entryLe a b) true

/-- `list_dir` from `tools.py` (lines 10-25): resolve, require a
directory, enumerate children sorted by `(not is_dir, name.lower())`
(Python `sorted` is a stable sort, modelled by insertion sort), one
name per line; an empty directory and an `iterdir` exception get their
own messages. -/
def list_dir (root : AbsPath) (path : String) (env : Env) : String :=
  match _resolve_path root path env with
  | .error e => e
  | .ok p =>
    if env.isDir p = false then path ++ " is not a directory"
    else
      match env.children p with
      | .error e => "Error reading directory: " ++ e
      | .ok es =>
        let entries := es.insertionSort entryRel
        if entries.isEmpty then path ++ " is an empty directory"
        else joinSep "\n" (entries.map Entry.name)

/-- `_expand_glob_path` from `tools.py` (lines 196-220): run the glob
primitive (a failure there is re-raised as `Invalid glob pattern`),
keep the raw matches whose unresolved components pass
`match.relative_to(root)`, and return those matches after
`match.resolve()`.  Note the order: the containment check reads the
raw match, the resolution happens afterwards. -/
def _expand_glob_path (root : AbsPath) (pattern : String) (env : Env) : Except String (List AbsPath) :=
  match env.rawGlob pattern with
  | .error e => .error ("Invalid glob pattern: " ++ pattern ++ " (" ++ e ++ ")")
  | .ok ms => .ok ((ms.filter (fun m => isWithin root m)).map env.resolveAbs)

/-- Python `any(wc in path_str for wc in [..])` in `grep`: the entry is
treated as a glob when it contains `*`, `?` or `[`. -/
def hasWildcard (s : String) : Bool :=
  s.data.any (fun c => c == '*' || c == '?' || c == '[')

/-- The inner loop of the glob branch of `grep`: for each expanded
file, a `is not a file` line for non-files, otherwise the subprocess
output when it is non-empty. -/
def grepGlobLines (pattern : String) (env : Env) : List AbsPath → List String
  | [] => []
  | fp :: fps =>
    (if env.isFile fp = false then [pathToString fp ++ " is not a file"]
     else if env.grepOut pattern fp == "" then []
     else [env.grepOut pattern fp])
    ++ grepGlobLines pattern env fps

/-- One iteration of the `for path_str in paths` loop of `grep`
(lines 79-108 of `tools.py`): the glob branch propagates an exception
of `_expand_glob_path` (there is no `try` around it), while the
concrete branch catches the resolver's `ValueError` and appends it as
a line. -/
def grepEntryLines (root : AbsPath) (pattern : String) (env : Env) (path_str : String) :
    Except String (List String) :=
  if hasWildcard path_str then
    match _expand_glob_path root path_str env with
    | .error e => .error e
    | .ok matched =>
      if matched.isEmpty then .ok [path_str ++ " did not match any files"]
      else .ok (grepGlobLines pattern env matched)
  else
    match _resolve_path root path_str env with
    | .error e => .ok [path_str ++ ": " ++ e]
    | .ok fp =>
      if env.isFile fp = false then .ok [path_str ++ " is not a file"]
      else if env.grepOut pattern fp == "" then .ok []
      else .ok [env.grepOut pattern fp]

/-- The accumulated `result_lines` of `grep` over the whole path list;
an exception in any iteration aborts the loop (and `grep` itself). -/
def grepResultLines (root : AbsPath) (pattern : String) (env : Env) :
    List String → Except String (List String)
  | [] => .ok []
  | p :: ps =>
    match grepEntryLines root pattern env p with
    | .error e => .error e
    | .ok ls =>
      match grepResultLines root pattern env ps with
      | .error e => .error e
      | .ok rest => .ok (ls ++ rest)

/-- `MAX_GREP_OUTPUT` from `tools.py` line 75. -/
def MAX_GREP_OUTPUT : Nat := 4096

/-- The truncation marker appended by `grep` and `tree`
(`"\n[Output truncated]"`, 19 characters). -/
def truncMarker : String := "\n[Output truncated]"

/-- Python slicing `s[:n]` for an `int` bound `n`: a non-negative bound
keeps the first `n` characters, a negative bound drops the last `-n`
characters (clamped at the empty string). -/
def pyTake (s : String) (n : Int) : String :=
  if 0 ≤ n then ⟨s.data.take n.toNat⟩
  else ⟨s.data.take (s.data.length - n.natAbs)⟩

/-- The message `grep` returns when `combined_output` is empty. -/
def noMatchMsg (pattern : String) : String :=
  "No matches found for pattern " ++ squote ++ pattern ++ squote

/-- `grep` from `tools.py` (lines 63-117): gather `result_lines`, join
them with newlines, truncate the joined string to `4096 - 19`
characters plus the marker when it exceeds 4096 characters, and return
the no-match message when the (possibly truncated) string is empty.
The `error` case is the uncaught `ValueError` coming out of
`_expand_glob_path`. -/
def grep (root : AbsPath) (pattern : String) (paths : List String) (env : Env) :
    Except String String :=
  match grepResultLines root pattern env paths with
  | .error e => .error e
  | .ok lines =>
    let combined := joinSep "\n" lines
    let final :=
      if combined.length > MAX_GREP_OUTPUT then
        pyTake combined ((MAX_GREP_OUTPUT : Int) - (truncMarker.length : Int)) ++ truncMarker
      else combined
    if final == "" then .ok (noMatchMsg pattern) else .ok final

/-- Python `str.splitlines` restricted to `\n` separators (the only
separator occurring in `tree` output): a final newline does not
produce a trailing empty line. -/
def splitlinesAux : List Char → List Char → List String
  | [], acc => if acc.isEmpty then [] else [⟨acc.reverse⟩]
  | c :: cs, acc =>
    if c == '\n' then (⟨acc.reverse⟩ : String) :: splitlinesAux cs []
    else splitlinesAux cs (c :: acc)

/-- Python `raw_output.splitlines()`. -/
def pySplitlines (s : String) : List String := splitlinesAux s.data []

/-- Python `line.lstrip(" ")`: strip leading space characters only. -/
def pyLstripSpace (s : String) : String := ⟨s.data.dropWhile (fun c => c == ' ')⟩

/-- Python `line.lstrip()`: strip leading whitespace. -/
def pyLstrip (s : String) : String := ⟨s.data.dropWhile Char.isWhitespace⟩

/-- Python `line.strip()`: strip leading and trailing whitespace. -/
def pyStrip (s : String) : String :=
  ⟨((s.data.dropWhile Char.isWhitespace).reverse.dropWhile Char.isWhitespace).reverse⟩

/-- Python `s.startswith(p)`. -/
def strStartsWith (s p : String) : Bool := List.isPrefixOf p.data s.data

/-- The per-line filter of `tree` (lines 176-184 of `tools.py`): a line
whose whitespace-stripped form starts with one of the two connector
glyph sequences is kept only when its space-indent level (leading
spaces divided by 4) does not exceed `allowed_indent`; every other
line is kept unconditionally. -/
def treeFilterLine (allowed_indent : Int) (line : String) : Bool :=
  if strStartsWith (pyLstrip line) "└──" || strStartsWith (pyLstrip line) "├──" then
    decide (((line.length - (pyLstripSpace line).length) / 4 : Nat) ≤ allowed_indent)
  else true

/-- `tree` from `tools.py` (lines 120-193): resolve, require a
directory and `max_depth ≥ 1`, run the `tree` subprocess, take its
stdout (or stderr when stdout is empty), split into lines, peel off
the first line as a header when it equals `str(p)` after stripping,
filter connector lines by indent level against
`allowed_indent = max_depth - 2`, reassemble, and truncate to
`max_output` with the marker when the result is longer than
`max_output`. -/
def tree (root : AbsPath) (path : String) (max_depth : Int) (include_files : Bool)
    (max_output : Int) (env : Env) : String :=
  match _resolve_path root path env with
  | .error e => e
  | .ok p =>
    if env.isDir p = false then path ++ " is not a directory"
    else if max_depth < 1 then "max_depth must be at least 1"
    else
      match env.treeCmd p max_depth include_files with
      | .notFound => "The " ++ squote ++ "tree" ++ squote ++ " command is not available on this system."
      | .err e => "Error running tree command: " ++ e
      | .ok stdout stderr =>
        let raw_output := if stdout == "" then stderr else stdout
        let lines := pySplitlines raw_output
        let split :=
          match lines with
          | [] => (("" : String), ([] : List String))
          | l0 :: rest => if pyStrip l0 == pathToString p then (l0, rest) else ("", lines)
        let header := split.1
        let remaining := split.2
        let filtered := remaining.filter (treeFilterLine (max_depth - 2))
        let output :=
          if header == "" then joinSep "\n" filtered
          else header ++ "\n" ++ joinSep "\n" filtered
        if (output.length : Int) > max_output then
          pyTake output (max_output - (truncMarker.length : Int)) ++ truncMarker
        else output

/-- A concrete environment for evaluation: every string parses to a
single relative component, normalization is the identity, every path
is a file and a directory, globs match nothing, subprocesses print
nothing, reads return empty text. -/
def envBase : Env where
  parse := fun s => some { isAbsolute := false, parts := [s] }
  resolveAbs := fun p => p
  isFile := fun _ => true
  isDir := fun _ => true
  rawGlob := fun _ => .ok []
  grepOut := fun _ _ => ""
  readUtf8 := fun _ => .ok ""
  readLatin1 := fun _ => ""
  children := fun _ => .ok []
  treeCmd := fun _ _ _ => .ok "" ""

/-- An environment whose glob primitive raises (the situation the
`except` branch of `_expand_glob_path` anticipates). -/
def envGlobFail : Env := { envBase with rawGlob := fun _ => .error "boom" }

/-- An environment with one glob match `/r/link` that is lexically
inside the root but normalizes (as a symlink would) to `/out/f`
outside it; grepping that file succeeds and prints a line. -/
def envSymlink : Env := { envBase with
  rawGlob := fun _ => .ok [["r", "link"]],
  resolveAbs := fun p => if p == ["r", "link"] then ["out", "f"] else p,
  grepOut := fun _ fp => if fp == ["out", "f"] then "/out/f:1:secret" else "" }

/-- An environment in which every resolved path fails `is_file`. -/
def envNoFiles : Env := { envBase with isFile := fun _ => false }

/-- An environment in which every UTF-8 read fails while the
single-byte decoding would succeed. -/
def envBadUtf8 : Env := { envBase with
  readUtf8 := fun _ => .error "bad utf8",
  readLatin1 := fun _ => "latin1 content" }

/-- An environment whose `tree` subprocess prints a single 30-character
line. -/
def envTreeWide : Env := { envBase with
  treeCmd := fun _ _ _ => .ok "abcdefghijklmnopqrstuvwxyz0123" "" }

/-- A `tree` rendering of a directory with two children where the
first child has a child of its own: the grandchild line is prefixed
with the vertical-bar glyph, not with spaces. -/
def rawTreeFork : String := "/r/d\n├── a\n│   └── g\n└── b\n\n3 directories"

/-- An environment whose `tree` subprocess prints `rawTreeFork`. -/
def envTreeFork : Env := { envBase with treeCmd := fun _ _ _ => .ok rawTreeFork "" }

/-- The ordering property claimed for the `list_dir` output sequence:
no file precedes a directory, and entries of the same kind appear in
case-insensitive (lowercased, code-point lexicographic) name order. -/
def entryOrdered (a b : Entry) : Prop :=
  (b.isDir = true → a.isDir = true) ∧
    (a.isDir = b.isDir → lexLe (lowerKey a) (lowerKey b) = true)

/-- A 4100-character pattern, longer than `MAX_GREP_OUTPUT`. -/
def bigPattern : String := ⟨List.replicate 4100 'a'⟩

/-- Two children of a directory: a file `b.txt` and a directory `A`. -/
def entriesW : List Entry := [{ name := "b.txt", isDir := false }, { name := "A", isDir := true }]

/-- An environment whose directories contain `entriesW`. -/
def envTwoEntries : Env := { envBase with children := fun _ => .ok entriesW }

/-- An environment in which exactly the file `/r/b` fails to decode as
UTF-8. -/
def envOneBad : Env := { envBase with
  readUtf8 := fun p => if p == ["r", "b"] then .error "boom" else .ok "ok" }

/-- Claim C1: for every root, every input string and every behavior of
the parsing and normalization oracles (the latter models `.`/`..`
elimination and symlink resolution by `Path.resolve`), a successful
`_resolve_path` returns a path equal to the root or a strict
descendant of it.  The containment test is applied to the output of
the normalization oracle, so the conclusion holds for arbitary symlink
structures: no successful resolution denotes an entry outside the
root subtree. -/
theorem resolve_path_within_root (root : AbsPath) (path_str : String) (env : Env)
    (target : AbsPath) (h : _resolve_path root path_str env = .ok target) :
    target = root ∨ (isWithin root target = true ∧ target ≠ root) := by
  unfold _resolve_path at h
  cases hp : env.parse path_str with
  | none => rw [hp] at h; exact Except.noConfusion h
  | some t =>
    rw [hp] at h
    simp only at h
    set R := if t.isAbsolute then env.resolveAbs t.parts else env.resolveAbs (root ++ t.parts)
      with hR
    split at h
    · rename_i hg
      injection h with h
      subst h
      rcases eq_or_ne R root with he | he
      · exact Or.inl he
      · exact Or.inr ⟨hg, he⟩
    · exact Except.noConfusion h

theorem resolve_path_within_root_witness :
    _resolve_path ["r"] "a" envBase = .ok ["r", "a"] ∧
      ((["r", "a"] : AbsPath) = ["r"] ∨
        (isWithin ["r"] ["r", "a"] = true ∧ (["r", "a"] : AbsPath) ≠ ["r"])) :=
  ⟨rfl, resolve_path_within_root ["r"] "a" envBase ["r", "a"] rfl⟩

/-- Claim C10: `grep` called with an empty path list returns the
no-match sentence with the pattern interpolated, for every pattern and
every environment; it neither returns the empty string nor raises. -/
theorem grep_empty_paths (root : AbsPath) (pattern : String) (env : Env) :
    grep root pattern [] env = .ok (noMatchMsg pattern) := rfl

/-- Claim C5: evaluating `grep` at a glob entry whose expansion
primitive fails shows the re-raised `ValueError` of
`_expand_glob_path` escaping `grep` uncaught, contradicting the
never-raise contract (`grep` does catch the analogous `ValueError`
from `_resolve_path` in its concrete-path branch). -/
theorem grep_raises_on_glob_failure :
    grep ["r"] "x" ["*"] envGlobFail = .error ("Invalid glob pattern: * (boom)") := rfl

/-- Claim C4: `_expand_glob_path` checks containment on the raw glob
match and resolves afterwards, so a match lexically inside the root
that normalizes outside it is returned, is not within the root, and is
searched by `grep`, which returns content of the outside file. -/
theorem glob_escapes_root :
    _expand_glob_path ["r"] "li*" envSymlink = .ok [["out", "f"]] ∧
      isWithin ["r"] ["out", "f"] = false ∧
      grep ["r"] "x" ["li*"] envSymlink = .ok "/out/f:1:secret" :=
  ⟨rfl, rfl, rfl⟩

/-- Claim C8 counterexample: a path entry that resolves to a non-file
produces the inline `is not a file` line, so although no file produced
any match, `grep` returns that line and not the no-match sentence. -/
theorem grep_not_file_precludes_no_match :
    grep ["r"] "x" ["d"] envNoFiles = .ok "d is not a file" ∧
      ("d is not a file" : String) ≠ noMatchMsg "x" :=
  ⟨rfl, by decide⟩

/-- Claim C3 counterexample: on a UTF-8 decoding failure `_read_file`
returns the error message immediately; the spec-modelled reader with
the claimed single-byte fallback returns the decoded content instead,
so the two differ — the source implements no fallback. -/
theorem read_file_no_fallback :
    _read_file ["r"] "f" envBadUtf8 = "Failed to read file: bad utf8" ∧
      read_file_specFallback ["r"] "f" envBadUtf8 = "latin1 content" ∧
      _read_file ["r"] "f" envBadUtf8 ≠ read_file_specFallback ["r"] "f" envBadUtf8 :=
  ⟨rfl, rfl, by decide⟩

/-- Claim C6 counterexample: with `max_output = 10` (smaller than the
19-character marker) the Python slice `output[:max_output - 19]` has a
negative bound, so the truncated result keeps all but the last 9
characters and appends the marker: 40 characters, exceeding
`max_output`. -/
theorem tree_small_max_output_exceeds :
    tree ["r"] "d" 1 false 10 envTreeWide = "abcdefghijklmnopqrstu" ++ truncMarker ∧
      (10 : Int) < (("abcdefghijklmnopqrstu" ++ truncMarker).length : Int) :=
  ⟨rfl, by decide⟩

/-- Claim C9: with `max_depth = 2` every grandchild should be removed
(allowed indent level 0), but the filter only recognizes connector
lines after `lstrip`, so the grandchild line prefixed by the
vertical-bar glyph is kept (`tree` returns the rendering unchanged,
grandchild included), while the same grandchild under a last sibling
(space-indented) would be dropped — the exclusion depends on the
entry's position in the rendering. -/
theorem tree_keeps_deep_entry :
    tree ["r"] "d" 2 false 4096 envTreeFork = rawTreeFork ∧
      (pySplitlines rawTreeFork).contains "│   └── g" = true ∧
      treeFilterLine 0 "│   └── g" = true ∧
      treeFilterLine 0 "    └── g" = false :=
  ⟨rfl, rfl, rfl, rfl⟩

theorem lexLe_total (as bs : List Char) : lexLe as bs = true ∨ lexLe bs as = true := by
  induction as generalizing bs with
  | nil => exact Or.inl rfl
  | cons a as ih =>
    cases bs with
    | nil => exact Or.inr rfl
    | cons b bs =>
      simp only [lexLe]
      rcases Nat.lt_trichotomy a.toNat b.toNat with hlt | heq | hgt
      · left
        simp [hlt]
      · have h1 : ¬ a.toNat < b.toNat := by omega
        have h2 : ¬ b.toNat < a.toNat := by omega
        simp only [h1, h2, if_false]
        exact ih bs
      · right
        simp [hgt]

theorem lexLe_trans : ∀ as bs cs : List Char,
    lexLe as bs = true → lexLe bs cs = true → lexLe as cs = true
  | [], _, _, _, _ => rfl
  | _ :: _, [], _, h1, _ => absurd h1 (by simp [lexLe])
  | _ :: _, _ :: _, [], _, h2 => absurd h2 (by simp [lexLe])
  | a :: as, b :: bs, c :: cs, h1, h2 => by
    simp only [lexLe] at h1 h2 ⊢
    by_cases hab : a.toNat < b.toNat <;> by_cases hba : b.toNat < a.toNat <;>
      by_cases hbc : b.toNat < c.toNat <;> by_cases hcb : c.toNat < b.toNat <;>
      simp only [hab, hba, hbc, hcb, if_true, if_false, reduceCtorEq] at h1 h2 <;>
      first
        | (have hac : a.toNat < c.toNat := by omega
           simp [hac])
        | (have hac : ¬ a.toNat < c.toNat := by omega
           have hca : ¬ c.toNat < a.toNat := by omega
           simp only [hac, hca, if_false]
           exact lexLe_trans as bs cs h1 h2)

theorem entryLe_total (a b : Entry) : entryLe a b = true ∨ entryLe b a = true := by
  unfold entryLe
  rcases Nat.lt_trichotomy (dirRank a) (dirRank b) with hlt | heq | hgt
  · left
    simp [hlt]
  · have h1 : ¬ dirRank a < dirRank b := by omega
    have h2 : ¬ dirRank b < dirRank a := by omega
    simp only [h1, h2, if_false]
    exact lexLe_total (lowerKey a) (lowerKey b)
  · right
    simp [hgt]

theorem entryLe_trans (a b c : Entry) (h1 : entryLe a b = true) (h2 : entryLe b c = true) :
    entryLe a c = true := by
  unfold entryLe at h1 h2 ⊢
  by_cases hab : dirRank a < dirRank b <;> by_cases hba : dirRank b < dirRank a <;>
    by_cases hbc : dirRank b < dirRank c <;> by_cases hcb : dirRank c < dirRank b <;>
    simp only [hab, hba, hbc, hcb, if_true, if_false, reduceCtorEq] at h1 h2 <;>
    first
      | (have hac : dirRank a < dirRank c := by omega
         simp [hac])
      | (have hac : ¬ dirRank a < dirRank c := by omega
         have hca : ¬ dirRank c < dirRank a := by omega
         simp only [hac, hca, if_false]
         exact lexLe_trans _ _ _ h1 h2)

theorem entryLe_ordered {a b : Entry} (h : entryLe a b = true) : entryOrdered a b := by
  constructor
  · intro hb
    by_cases ha : a.isDir = true
    · exact ha
    · exfalso
      have ha' : a.isDir = false := by
        revert ha
        cases a.isDir <;> simp
      unfold entryLe dirRank at h
      rw [ha', hb] at h
      simp at h
  · intro hab
    unfold entryLe dirRank at h
    rw [hab] at h
    simp at h
    exact h

theorem pyTake_length (s : String) (n : Int) (h : 0 ≤ n) :
    (pyTake s n).length = min n.toNat s.length := by
  unfold pyTake
  rw [if_pos h]
  show (s.data.take n.toNat).length = min n.toNat s.length
  rw [List.length_take]
  rfl

theorem noMatchMsg_length (pattern : String) :
    (noMatchMsg pattern).length = 31 + pattern.length := by
  unfold noMatchMsg
  rw [String.length_append, String.length_append, String.length_append]
  have h1 : ("No matches found for pattern " : String).length = 29 := rfl
  have h2 : squote.length = 1 := rfl
  omega

theorem joinSep_cons (sep x : String) (bs : List String) :
    joinSep sep (x :: bs) = if bs.isEmpty then x else x ++ sep ++ joinSep sep bs := by
  cases bs <;> simp [joinSep]

theorem joinSep_append (sep : String) (as : List String) (b : String) (bs : List String) :
    joinSep sep (as ++ b :: bs) =
      if as.isEmpty then joinSep sep (b :: bs)
      else joinSep sep as ++ sep ++ joinSep sep (b :: bs) := by
  induction as with
  | nil => simp
  | cons x xs ih =>
    cases hxs : xs with
    | nil => simp [joinSep, joinSep_cons]
    | cons y ys =>
      rw [← hxs]
      have hne : (xs ++ b :: bs) ≠ [] := by simp
      rw [List.cons_append]
      rw [joinSep_cons sep x (xs ++ b :: bs), joinSep_cons sep x xs]
      rw [ih]
      have hxe : xs.isEmpty = false := by rw [hxs]; rfl
      have hae : (xs ++ b :: bs).isEmpty = false := by
        rw [hxs]; rfl
      simp only [hxe, hae, List.isEmpty_cons, if_false, Bool.false_eq_true]
      simp [String.append_assoc]

theorem truncate_length_bound (output : String) (max_output : Int)
    (h : (truncMarker.length : Int) ≤ max_output) :
    (((if (output.length : Int) > max_output then
          pyTake output (max_output - (truncMarker.length : Int)) ++ truncMarker
        else output) : String).length : Int) ≤ max_output := by
  by_cases hlen : (output.length : Int) > max_output
  · rw [if_pos hlen]
    rw [String.length_append]
    have hm : truncMarker.length = 19 := rfl
    have h0 : (0 : Int) ≤ max_output - (truncMarker.length : Int) := by omega
    have hl := pyTake_length output (max_output - (truncMarker.length : Int)) h0
    rw [hl, hm]
    rw [hm] at h
    omega
  · rw [if_neg hlen]
    omega

/-- Claim C2 counterexample: when no result line is produced, `grep`
returns the no-match sentence, whose length is `31 + len(pattern)`;
with a 4100-character pattern the returned string has 4131 characters,
more than the claimed global cap of 4096. -/
theorem grep_cap_counterexample :
    grep ["r"] bigPattern [] envBase = .ok (noMatchMsg bigPattern) ∧
      MAX_GREP_OUTPUT < (noMatchMsg bigPattern).length :=
  ⟨rfl, by
    have h1 : (noMatchMsg bigPattern).length = 31 + bigPattern.length :=
      noMatchMsg_length bigPattern
    have h2 : bigPattern.length = 4100 := by
      show (List.replicate 4100 'a').length = 4100
      exact List.length_replicate 4100 'a'
    unfold MAX_GREP_OUTPUT
    omega⟩

/-- Claim C2 (amended): every string `grep` returns without raising has
length at most `max 4096 (31 + len(pattern))`: the joined match output
is truncated to exactly 4096 characters (marker included) when it
exceeds 4096, is returned unchanged otherwise, and only the no-match
sentence — of length `31 + len(pattern)` — can exceed the cap. -/
theorem grep_output_length_bound (root : AbsPath) (pattern : String) (paths : List String)
    (env : Env) (out : String) (h : grep root pattern paths env = .ok out) :
    out.length ≤ max MAX_GREP_OUTPUT (noMatchMsg pattern).length := by
  unfold grep at h
  cases hr : grepResultLines root pattern env paths with
  | error e => rw [hr] at h; exact Except.noConfusion h
  | ok lines =>
    rw [hr] at h
    simp only at h
    by_cases hlen : (joinSep "\n" lines).length > MAX_GREP_OUTPUT
    · simp only [if_pos hlen] at h
      split at h
      · injection h with h
        subst h
        exact le_max_right _ _
      · injection h with h
        subst h
        rw [String.length_append]
        have hm : truncMarker.length = 19 := rfl
        have hM : MAX_GREP_OUTPUT = 4096 := rfl
        have h0 : (0 : Int) ≤ (MAX_GREP_OUTPUT : Int) - (truncMarker.length : Int) := by
          rw [hm, hM]
          omega
        have hl := pyTake_length (joinSep "\n" lines)
          ((MAX_GREP_OUTPUT : Int) - (truncMarker.length : Int)) h0
        rw [hl, hm, hM]
        have hmax : MAX_GREP_OUTPUT ≤ max MAX_GREP_OUTPUT (noMatchMsg pattern).length :=
          le_max_left _ _
        rw [hM] at hmax
        omega
    · simp only [if_neg hlen] at h
      split at h
      · injection h with h
        subst h
        exact le_max_right _ _
      · injection h with h
        subst h
        exact le_trans (Nat.le_of_not_lt hlen) (le_max_left _ _)

theorem grep_output_length_bound_witness :
    grep ["r"] "x" [] envBase = .ok (noMatchMsg "x") ∧
      (noMatchMsg "x").length ≤ max MAX_GREP_OUTPUT (noMatchMsg "x").length :=
  ⟨rfl, grep_output_length_bound ["r"] "x" [] envBase (noMatchMsg "x") rfl⟩

/-- Claim C8 (amended): `grep` returns the no-match sentence when the
loop over the path entries produces no result line at all — no match
output and no inline status message; an entry that is not a file,
fails to resolve, or is a glob matching nothing produces an inline
line instead, and the sentence is then not returned (see the
counterexample). -/
theorem grep_no_lines_gives_no_match (root : AbsPath) (pattern : String) (paths : List String)
    (env : Env) (h : grepResultLines root pattern env paths = .ok []) :
    grep root pattern paths env = .ok (noMatchMsg pattern) := by
  unfold grep
  rw [h]
  rfl

theorem grep_no_lines_gives_no_match_witness :
    grepResultLines ["r"] "x" envBase ["f"] = .ok [] ∧
      grep ["r"] "x" ["f"] envBase = .ok (noMatchMsg "x") :=
  ⟨rfl, grep_no_lines_gives_no_match ["r"] "x" ["f"] envBase rfl⟩

/-- Claim C6 (amended): when the call reaches the rendering stage (the
path resolves to a directory, `max_depth ≥ 1`, the subprocess runs)
and `max_output` is at least the 19-character marker length, the
string `tree` returns has length at most `max_output`; for smaller
`max_output` the negative Python slice bound makes the result longer
than `max_output` (see the counterexample). -/
theorem tree_output_length_bound (root : AbsPath) (path : String) (max_depth : Int)
    (include_files : Bool) (max_output : Int) (env : Env) (p : AbsPath) (so se : String)
    (h1 : _resolve_path root path env = .ok p) (h2 : env.isDir p = true)
    (h3 : ¬ max_depth < 1) (h4 : env.treeCmd p max_depth include_files = .ok so se)
    (h5 : (truncMarker.length : Int) ≤ max_output) :
    ((tree root path max_depth include_files max_output env).length : Int) ≤ max_output := by
  unfold tree
  rw [h1]
  simp only [h2, h3, h4]
  simp only [Bool.true_eq_false, if_false]
  exact truncate_length_bound _ _ h5

theorem tree_output_length_bound_witness :
    _resolve_path ["r"] "d" envBase = .ok ["r", "d"] ∧
      envBase.isDir ["r", "d"] = true ∧
      ¬ (1 : Int) < 1 ∧
      envBase.treeCmd ["r", "d"] 1 false = .ok "" "" ∧
      (truncMarker.length : Int) ≤ 4096 ∧
      ((tree ["r"] "d" 1 false 4096 envBase).length : Int) ≤ 4096 :=
  ⟨rfl, rfl, by decide, rfl, by decide,
    tree_output_length_bound ["r"] "d" 1 false 4096 envBase ["r", "d"] "" ""
      rfl rfl (by decide) rfl (by decide)⟩

/-- Claim C3 (amended): each entry is read as UTF-8 only — there is no
fallback encoding (see the counterexample).  An entry whose UTF-8 read
fails contributes exactly its inline `Failed to read file` block, and
the batches before and after it are rendered exactly as they would be
on their own: one failing file never aborts the rest, and the blocks
`<path>\n\n<content>` appear in input order joined by single
newlines. -/
theorem read_files_bad_entry_isolated (root : AbsPath) (env : Env) (xs ys : List String)
    (pbad : String) (fb : AbsPath) (e : String)
    (h1 : _resolve_path root pbad env = .ok fb) (h2 : env.isFile fb = true)
    (h3 : env.readUtf8 fb = .error e) :
    read_files root (xs ++ pbad :: ys) env =
      (if xs.isEmpty then "" else read_files root xs env ++ "\n") ++
        (pbad ++ "\n\n" ++ ("Failed to read file: " ++ e)) ++
        (if ys.isEmpty then "" else "\n" ++ read_files root ys env) := by
  have hbad : _read_file root pbad env = "Failed to read file: " ++ e := by
    unfold _read_file
    rw [h1]
    simp [h2, h3]
  unfold read_files
  simp only [List.map_append, List.map_cons]
  rw [joinSep_append "\n" (xs.map _) _ (ys.map _)]
  rw [joinSep_cons]
  rw [hbad]
  cases xs with
  | nil =>
    cases ys with
    | nil => simp
    | cons y ys' => simp [String.append_assoc]
  | cons x xs' =>
    cases ys with
    | nil => simp [String.append_assoc]
    | cons y ys' => simp [String.append_assoc]

theorem read_files_bad_entry_isolated_witness :
    _resolve_path ["r"] "b" envOneBad = .ok ["r", "b"] ∧
      envOneBad.isFile ["r", "b"] = true ∧
      envOneBad.readUtf8 ["r", "b"] = .error "boom" ∧
      read_files ["r"] (["g"] ++ "b" :: ["h"]) envOneBad =
        (if (["g"] : List String).isEmpty then ""
          else read_files ["r"] ["g"] envOneBad ++ "\n") ++
          ("b" ++ "\n\n" ++ ("Failed to read file: " ++ "boom")) ++
          (if (["h"] : List String).isEmpty then ""
            else "\n" ++ read_files ["r"] ["h"] envOneBad) :=
  ⟨rfl, rfl, rfl,
    read_files_bad_entry_isolated ["r"] envOneBad ["g"] ["h"] "b" ["r", "b"] "boom"
      rfl rfl rfl⟩

/-- Claim C7: for a path that resolves, `list_dir` returns the
`is not a directory` message on a non-directory; on a directory with
children `l` it returns the `is an empty directory` message when `l`
is empty, and otherwise one name per line of a permutation of `l`
that is sorted with directories before files and, within each kind,
in case-insensitive name order. -/
theorem list_dir_spec (root : AbsPath) (path : String) (env : Env) (p : AbsPath)
    (l : List Entry) (h : _resolve_path root path env = .ok p) :
    (env.isDir p = false → list_dir root path env = path ++ " is not a directory") ∧
    (env.isDir p = true → env.children p = .ok l → l = [] →
      list_dir root path env = path ++ " is an empty directory") ∧
    (env.isDir p = true → env.children p = .ok l → l ≠ [] →
      list_dir root path env = joinSep "\n" ((l.insertionSort entryRel).map Entry.name) ∧
      (l.insertionSort entryRel).Perm l ∧
      (l.insertionSort entryRel).Pairwise entryOrdered) := by
  refine ⟨?_, ?_, ?_⟩
  · intro hdir
    unfold list_dir
    rw [h]
    simp [hdir]
  · intro hdir hch hnil
    subst hnil
    unfold list_dir
    rw [h]
    simp [hdir, hch, List.insertionSort]
  · intro hdir hch hne
    have hs := List.perm_insertionSort entryRel l
    have hsne : l.insertionSort entryRel ≠ [] := by
      intro hnil
      exact hne ((hnil ▸ hs).symm.eq_nil)
    have hie : (l.insertionSort entryRel).isEmpty = false := by
      cases hS : l.insertionSort entryRel with
      | nil => exact absurd hS hsne
      | cons a as => rfl
    refine ⟨?_, hs, ?_⟩
    · unfold list_dir
      rw [h]
      simp [hdir, hch, hie]
    · have hp := @List.sorted_insertionSort Entry entryRel _ ⟨entryLe_total⟩ ⟨entryLe_trans⟩ l
      exact hp.imp (fun hab => entryLe_ordered hab)

theorem list_dir_spec_witness :
    _resolve_path ["r"] "d" envTwoEntries = .ok ["r", "d"] ∧
      ((envTwoEntries.isDir ["r", "d"] = false →
          list_dir ["r"] "d" envTwoEntries = "d" ++ " is not a directory") ∧
        (envTwoEntries.isDir ["r", "d"] = true →
          envTwoEntries.children ["r", "d"] = .ok entriesW → entriesW = [] →
          list_dir ["r"] "d" envTwoEntries = "d" ++ " is an empty directory") ∧
        (envTwoEntries.isDir ["r", "d"] = true →
          envTwoEntries.children ["r", "d"] = .ok entriesW → entriesW ≠ [] →
          list_dir ["r"] "d" envTwoEntries =
            joinSep "\n" ((entriesW.insertionSort entryRel).map Entry.name) ∧
          (entriesW.insertionSort entryRel).Perm entriesW ∧
          (entriesW.insertionSort entryRel).Pairwise entryOrdered)) :=
  ⟨rfl, list_dir_spec ["r"] "d" envTwoEntries ["r", "d"] entriesW rfl⟩
